import Mathlib

/-!
Shallow embedding of the Rubik's cube engine in `cube/state.py` and
`cube/moves.py`.

Modelling conventions:
* Python strings (move names, and abstractly any sequence of characters)
  are modelled as `List Char`; the apostrophe used as the prime marker in
  move notation is the character with code 39.
* `CubeState` wraps the sticker list; the Python class stores a 54-tuple,
  validated by the constructor (`CubeState.construct` below).  Moves are
  polymorphic in the sticker type, exactly as the duck-typed Python code is.
* Python list indexing `xs[i]` inside the move engine is modelled with
  `List.getD`; every index actually used by the engine is in range, so the
  default is never reached on the states the engine produces.
* Fallible boundaries (`CubeState.__init__` length check, `apply_move`
  dispatch) return `Except CubeError`; the spec calls the two failure modes
  `ShapeError` and `InvalidMoveError`.
-/

namespace Cube

/-- Decidable equality for `Except`, needed so that concrete runs of the
fallible boundaries can be evaluated inside proofs. -/
instance {ε α : Type} [DecidableEq ε] [DecidableEq α] : DecidableEq (Except ε α) :=
  fun x y =>
    match x, y with
    | .ok a, .ok b =>
      if h : a = b then .isTrue (congrArg Except.ok h)
      else .isFalse fun hh => h (Except.ok.inj hh)
    | .error e, .error f =>
      if h : e = f then .isTrue (congrArg Except.error h)
      else .isFalse fun hh => h (Except.error.inj hh)
    | .ok _, .error _ => .isFalse fun hh => Except.noConfusion hh
    | .error _, .ok _ => .isFalse fun hh => Except.noConfusion hh

/-- Character code 39, the ASCII apostrophe that marks inverse moves. -/
def primeChar : Char := Char.ofNat 39

/-- Move names (Python strings) modelled as lists of characters. -/
abbrev MoveName := List Char

/-- Failure modes of the engine boundaries, named as in the spec:
a wrong-length sticker sequence at construction, or a move name outside
the 18-symbol vocabulary at dispatch (the latter carrying the enumerated
valid set, mirroring the error message of `apply_move`). -/
inductive CubeError where
  | shapeError (got : Nat)
  | invalidMoveError (move : MoveName) (valid : List MoveName)
deriving DecidableEq

/-- Immutable cube state: 54 stickers in URFDLB reading order
(`CubeState` in `state.py`). -/
structure CubeState (α : Type) where
  stickers : List α
deriving DecidableEq

/-- Solved-cube color table, mirroring `SOLVED_COLORS` in `state.py`. -/
def SOLVED_COLORS : List (Char × Char) :=
  [('U', 'W'), ('R', 'R'), ('F', 'G'), ('D', 'Y'), ('L', 'O'), ('B', 'B')]

/-- Center positions, mirroring `CENTER_POSITIONS` in `state.py`. -/
def CENTER_POSITIONS : List Nat := [4, 13, 22, 31, 40, 49]

/-- Sticker list of the solved cube, mirroring
`CubeState._create_solved_stickers`: nine copies of each face color in
URFDLB order. -/
def _create_solved_stickers : List Char :=
  (['U', 'R', 'F', 'D', 'L', 'B'].map fun face =>
    List.replicate 9 ((SOLVED_COLORS.lookup face).getD 'W')).flatten

/-- Validating constructor for a supplied sticker sequence, mirroring the
length check in `CubeState.__init__`: exactly 54 stickers or a shape
error; no other content validation. -/
def CubeState.construct (stickers : List α) : Except CubeError (CubeState α) :=
  if stickers.length = 54 then .ok ⟨stickers⟩
  else .error (.shapeError stickers.length)

/-- Full constructor mirroring `CubeState.__init__`: an omitted sticker
sequence (`None`) is replaced by the solved sticker list before the length
check. -/
def CubeState.init (stickers : Option (List Char)) : Except CubeError (CubeState Char) :=
  CubeState.construct (stickers.getD _create_solved_stickers)

/-- Solved state factory, mirroring `CubeState.solved` (the constructor
check always passes there, since the solved sticker list has length 54). -/
def CubeState.solved : CubeState Char :=
  ⟨_create_solved_stickers⟩

/-- Application of a permutation array to the stickers, mirroring
`_apply_permutation` in `moves.py`: `new_stickers[i] = old_stickers[perm[i]]`
for the 54 positions. -/
def _apply_permutation [Inhabited α] (cube : CubeState α) (perm : List Nat) :
    CubeState α :=
  ⟨(List.range 54).map fun i => cube.stickers.getD (perm.getD i 0) default⟩

/-- Permutation for a clockwise face rotation, mirroring `_rotate_face_cw`:
start from the identity on 54 positions, then install the corner cycle and
the edge cycle of the face at the given offset. -/
def _rotate_face_cw (face_offset : Nat) : List Nat :=
  let perm := List.range 54
  let perm := perm.set (face_offset + 0) (face_offset + 6)
  let perm := perm.set (face_offset + 2) (face_offset + 0)
  let perm := perm.set (face_offset + 8) (face_offset + 2)
  let perm := perm.set (face_offset + 6) (face_offset + 8)
  let perm := perm.set (face_offset + 1) (face_offset + 3)
  let perm := perm.set (face_offset + 5) (face_offset + 1)
  let perm := perm.set (face_offset + 7) (face_offset + 5)
  let perm := perm.set (face_offset + 3) (face_offset + 7)
  perm

/-- Permutation of the U move, mirroring the body of `apply_U`: rotate the
U face, then cycle the top rows of F, R, B, L. -/
def U_perm : List Nat :=
  let perm := _rotate_face_cw 0
  (List.range 3).foldl (fun p i =>
    (((p.set (9 + i) (18 + i)).set (45 + i) (9 + i)).set
      (36 + i) (45 + i)).set (18 + i) (36 + i)) perm

/-- Permutation of the R move, mirroring the body of `apply_R`. -/
def R_perm : List Nat :=
  let perm := _rotate_face_cw 9
  let perm := perm.set 20 2
  let perm := perm.set 23 5
  let perm := perm.set 26 8
  let perm := perm.set 29 20
  let perm := perm.set 32 23
  let perm := perm.set 35 26
  let perm := perm.set 51 29
  let perm := perm.set 48 32
  let perm := perm.set 45 35
  let perm := perm.set 2 51
  let perm := perm.set 5 48
  let perm := perm.set 8 45
  perm

/-- Permutation of the F move, mirroring the body of `apply_F`. -/
def F_perm : List Nat :=
  let perm := _rotate_face_cw 18
  let perm := perm.set 9 6
  let perm := perm.set 12 7
  let perm := perm.set 15 8
  let perm := perm.set 29 9
  let perm := perm.set 28 12
  let perm := perm.set 27 15
  let perm := perm.set 38 29
  let perm := perm.set 41 28
  let perm := perm.set 44 27
  let perm := perm.set 6 38
  let perm := perm.set 7 41
  let perm := perm.set 8 44
  perm

/-- Permutation of the D move, mirroring the body of `apply_D`: rotate the
D face, then cycle the bottom rows of F, L, B, R. -/
def D_perm : List Nat :=
  let perm := _rotate_face_cw 27
  (List.range 3).foldl (fun p i =>
    (((p.set (42 + i) (24 + i)).set (51 + i) (42 + i)).set
      (15 + i) (51 + i)).set (24 + i) (15 + i)) perm

/-- Permutation of the L move, mirroring the body of `apply_L` including
its single (rather than double) reversal of the B column. -/
def L_perm : List Nat :=
  let perm := _rotate_face_cw 36
  let perm := perm.set 18 0
  let perm := perm.set 21 3
  let perm := perm.set 24 6
  let perm := perm.set 27 18
  let perm := perm.set 30 21
  let perm := perm.set 33 24
  let perm := perm.set 53 33
  let perm := perm.set 50 30
  let perm := perm.set 47 27
  let perm := perm.set 0 53
  let perm := perm.set 3 50
  let perm := perm.set 6 47
  perm

/-- Permutation of the B move, mirroring the body of `apply_B`. -/
def B_perm : List Nat :=
  let perm := _rotate_face_cw 45
  let perm := perm.set 36 2
  let perm := perm.set 39 1
  let perm := perm.set 42 0
  let perm := perm.set 35 42
  let perm := perm.set 34 39
  let perm := perm.set 33 36
  let perm := perm.set 11 33
  let perm := perm.set 14 34
  let perm := perm.set 17 35
  let perm := perm.set 0 17
  let perm := perm.set 1 14
  let perm := perm.set 2 11
  perm

/-- Clockwise quarter turn of the U face (`apply_U`). -/
def apply_U [Inhabited α] (cube : CubeState α) : CubeState α :=
  _apply_permutation cube U_perm

/-- Counter-clockwise U turn, mirroring `apply_U_prime`: three U turns. -/
def apply_U_prime [Inhabited α] (cube : CubeState α) : CubeState α :=
  apply_U (apply_U (apply_U cube))

/-- Half U turn, mirroring `apply_U2`: two U turns. -/
def apply_U2 [Inhabited α] (cube : CubeState α) : CubeState α :=
  apply_U (apply_U cube)

/-- Clockwise quarter turn of the R face (`apply_R`). -/
def apply_R [Inhabited α] (cube : CubeState α) : CubeState α :=
  _apply_permutation cube R_perm

/-- Counter-clockwise R turn, mirroring `apply_R_prime`: three R turns. -/
def apply_R_prime [Inhabited α] (cube : CubeState α) : CubeState α :=
  apply_R (apply_R (apply_R cube))

/-- Half R turn, mirroring `apply_R2`: two R turns. -/
def apply_R2 [Inhabited α] (cube : CubeState α) : CubeState α :=
  apply_R (apply_R cube)

/-- Clockwise quarter turn of the F face (`apply_F`). -/
def apply_F [Inhabited α] (cube : CubeState α) : CubeState α :=
  _apply_permutation cube F_perm

/-- Counter-clockwise F turn, mirroring `apply_F_prime`: three F turns. -/
def apply_F_prime [Inhabited α] (cube : CubeState α) : CubeState α :=
  apply_F (apply_F (apply_F cube))

/-- Half F turn, mirroring `apply_F2`: two F turns. -/
def apply_F2 [Inhabited α] (cube : CubeState α) : CubeState α :=
  apply_F (apply_F cube)

/-- Clockwise quarter turn of the D face (`apply_D`). -/
def apply_D [Inhabited α] (cube : CubeState α) : CubeState α :=
  _apply_permutation cube D_perm

/-- Counter-clockwise D turn, mirroring `apply_D_prime`: three D turns. -/
def apply_D_prime [Inhabited α] (cube : CubeState α) : CubeState α :=
  apply_D (apply_D (apply_D cube))

/-- Half D turn, mirroring `apply_D2`: two D turns. -/
def apply_D2 [Inhabited α] (cube : CubeState α) : CubeState α :=
  apply_D (apply_D cube)

/-- Clockwise quarter turn of the L face (`apply_L`). -/
def apply_L [Inhabited α] (cube : CubeState α) : CubeState α :=
  _apply_permutation cube L_perm

/-- Counter-clockwise L turn, mirroring `apply_L_prime`: three L turns. -/
def apply_L_prime [Inhabited α] (cube : CubeState α) : CubeState α :=
  apply_L (apply_L (apply_L cube))

/-- Half L turn, mirroring `apply_L2`: two L turns. -/
def apply_L2 [Inhabited α] (cube : CubeState α) : CubeState α :=
  apply_L (apply_L cube)

/-- Clockwise quarter turn of the B face (`apply_B`). -/
def apply_B [Inhabited α] (cube : CubeState α) : CubeState α :=
  _apply_permutation cube B_perm

/-- Counter-clockwise B turn, mirroring `apply_B_prime`: three B turns. -/
def apply_B_prime [Inhabited α] (cube : CubeState α) : CubeState α :=
  apply_B (apply_B (apply_B cube))

/-- Half B turn, mirroring `apply_B2`: two B turns. -/
def apply_B2 [Inhabited α] (cube : CubeState α) : CubeState α :=
  apply_B (apply_B cube)

/-- Dispatch table from move names to move functions, mirroring the
`MOVE_FUNCTIONS` dict in `moves.py` (a Python dict modelled as an
association list in insertion order). -/
def MOVE_FUNCTIONS [Inhabited α] :
    List (MoveName × (CubeState α → CubeState α)) :=
  [(['U'], apply_U), (['U', primeChar], apply_U_prime), (['U', '2'], apply_U2),
   (['R'], apply_R), (['R', primeChar], apply_R_prime), (['R', '2'], apply_R2),
   (['F'], apply_F), (['F', primeChar], apply_F_prime), (['F', '2'], apply_F2),
   (['D'], apply_D), (['D', primeChar], apply_D_prime), (['D', '2'], apply_D2),
   (['L'], apply_L), (['L', primeChar], apply_L_prime), (['L', '2'], apply_L2),
   (['B'], apply_B), (['B', primeChar], apply_B_prime), (['B', '2'], apply_B2)]

/-- Keys of the dispatch table: the 18-symbol move vocabulary in the
insertion order of the `MOVE_FUNCTIONS` dict. -/
def MOVE_KEYS : List MoveName :=
  [['U'], ['U', primeChar], ['U', '2'],
   ['R'], ['R', primeChar], ['R', '2'],
   ['F'], ['F', primeChar], ['F', '2'],
   ['D'], ['D', primeChar], ['D', '2'],
   ['L'], ['L', primeChar], ['L', '2'],
   ['B'], ['B', primeChar], ['B', '2']]

/-- Lexicographic comparison of move names by character code, matching how
Python `sorted` compares strings (shorter prefix first). -/
def nameLe : MoveName → MoveName → Bool
  | [], _ => true
  | _ :: _, [] => false
  | a :: as, b :: bs => if a = b then nameLe as bs else decide (a < b)

/-- Ordered insertion of a move name into a sorted list of names. -/
def insert_sorted (m : MoveName) : List MoveName → List MoveName
  | [] => [m]
  | x :: xs => if nameLe m x then m :: x :: xs else x :: insert_sorted m xs

/-- Insertion sort on move names, modelling the Python builtin `sorted`. -/
def sort_names (l : List MoveName) : List MoveName := l.foldr insert_sorted []

/-- Enumerated valid move set carried by the dispatch error, mirroring
`sorted(MOVE_FUNCTIONS.keys())` in the `apply_move` error message. -/
def VALID_MOVES : List MoveName := sort_names MOVE_KEYS

/-- Table lookup for a move name, mirroring the membership test and
subscript on the `MOVE_FUNCTIONS` dict. -/
def lookup_move [Inhabited α] (move : MoveName) :
    Option (CubeState α → CubeState α) :=
  ((@MOVE_FUNCTIONS α _).find? fun p => p.1 == move).map Prod.snd

/-- Single-move dispatcher mirroring `apply_move`: an unknown name fails
with an invalid-move error enumerating the sorted valid set; a known name
applies the corresponding move function. -/
def apply_move [Inhabited α] (cube : CubeState α) (move : MoveName) :
    Except CubeError (CubeState α) :=
  match @lookup_move α _ move with
  | some f => .ok (f cube)
  | none => .error (.invalidMoveError move VALID_MOVES)

/-- Sequence application mirroring the loop in `apply_sequence`: apply the
moves left to right, propagating the first dispatch failure. -/
def apply_sequence [Inhabited α] (cube : CubeState α) (moves : List MoveName) :
    Except CubeError (CubeState α) :=
  match moves with
  | [] => .ok cube
  | m :: rest =>
    match apply_move cube m with
    | .ok c => apply_sequence c rest
    | .error e => .error e

/-- Syntactic move inversion mirroring `invert_move`: strip a trailing
prime, keep a double turn, otherwise append a prime. -/
def invert_move (move : MoveName) : MoveName :=
  if move.getLast? = some primeChar then move.dropLast
  else if move.getLast? = some '2' then move
  else move ++ [primeChar]

/-- Sequence inversion mirroring `invert_sequence`: reverse the list and
invert each element. -/
def invert_sequence (moves : List MoveName) : List MoveName :=
  moves.reverse.map invert_move

/-- Sexy move sequence `["R", "U", "R'", "U'"]` from the spec scenario. -/
def sexy_move : List MoveName :=
  [['R'], ['U'], ['R', primeChar], ['U', primeChar]]

/-!
Verification infrastructure: permutation composition reasoning for
`_apply_permutation`, used to reduce iterated move applications on an
arbitrary state to a single application of a concrete composed
permutation array.
-/

/-- Index evaluation of a mapped range: reading position `k` of
`(List.range n).map f` yields `f k` whenever `k < n`. -/
theorem getD_map_range {α : Type} (f : Nat → α) (d : α) {k n : Nat} (h : k < n) :
    ((List.range n).map f).getD k d = f k := by
  rw [List.getD_eq_getElem?_getD, List.getElem?_map, List.getElem?_range h]
  rfl

/-- Reading every position of a list through `getD` reconstructs the list. -/
theorem getD_range_map {α : Type} (l : List α) (d : α) :
    (List.range l.length).map (fun i => l.getD i d) = l := by
  apply List.ext_getElem
  · simp
  · intro n h1 h2
    simp [List.getD_eq_getElem?_getD, List.getElem?_eq_getElem h2]

/-- Composition of two 54-entry permutation arrays in the order used by
`_apply_permutation`: first `P`, then `Q`. -/
def compose_perm (P Q : List Nat) : List Nat :=
  (List.range 54).map fun i => P.getD (Q.getD i 0) 0

/-- Bound condition on a permutation array: its first 54 entries index
into the 54 sticker positions. -/
abbrev perm_in_range (Q : List Nat) : Prop :=
  ∀ i ∈ List.range 54, Q.getD i 0 < 54

/-- Two successive permutation applications collapse into one application
of the composed permutation array. -/
theorem apply_apply {α : Type} [Inhabited α] (s : CubeState α) (P Q : List Nat)
    (hQ : perm_in_range Q) :
    _apply_permutation (_apply_permutation s P) Q =
      _apply_permutation s (compose_perm P Q) := by
  unfold _apply_permutation compose_perm
  congr 1
  apply List.map_congr_left
  intro i hi
  simp only []
  rw [getD_map_range _ _ (hQ i hi), getD_map_range _ _ (List.mem_range.mp hi)]

/-- Application of the identity permutation array fixes every 54-sticker
state. -/
theorem apply_id {α : Type} [Inhabited α] (s : CubeState α)
    (h : s.stickers.length = 54) :
    _apply_permutation s (List.range 54) = s := by
  unfold _apply_permutation
  cases s with
  | mk l =>
    simp only [] at h ⊢
    congr 1
    have step : ∀ i ∈ List.range 54,
        l.getD ((List.range 54).getD i 0) default = l.getD i default := by
      intro i hi
      have hi54 : i < 54 := List.mem_range.mp hi
      rw [List.getD_eq_getElem?_getD (List.range 54), List.getElem?_range hi54]
      rfl
    rw [List.map_congr_left step, ← h]
    exact getD_range_map l default

/-- Square of a permutation array. -/
def perm2 (P : List Nat) : List Nat := compose_perm P P

/-- Cube of a permutation array. -/
def perm3 (P : List Nat) : List Nat := compose_perm (compose_perm P P) P

/-- Triple application of one permutation array collapses to its cube. -/
theorem triple_ap {α : Type} [Inhabited α] (s : CubeState α) (P : List Nat)
    (hP : perm_in_range P) :
    _apply_permutation (_apply_permutation (_apply_permutation s P) P) P =
      _apply_permutation s (perm3 P) := by
  rw [apply_apply s P P hP, apply_apply s (compose_perm P P) P hP]
  rfl

/-- Double application of one permutation array collapses to its square. -/
theorem double_ap {α : Type} [Inhabited α] (s : CubeState α) (P : List Nat)
    (hP : perm_in_range P) :
    _apply_permutation (_apply_permutation s P) P =
      _apply_permutation s (perm2 P) :=
  apply_apply s P P hP

/-- Reduction of the derived U-prime move to one permutation array. -/
theorem apply_U_prime_eq {α : Type} [Inhabited α] (s : CubeState α) :
    apply_U_prime s = _apply_permutation s (perm3 U_perm) :=
  triple_ap s U_perm (by decide)

/-- Reduction of the derived U2 move to one permutation array. -/
theorem apply_U2_eq {α : Type} [Inhabited α] (s : CubeState α) :
    apply_U2 s = _apply_permutation s (perm2 U_perm) :=
  double_ap s U_perm (by decide)

/-- Reduction of the derived R-prime move to one permutation array. -/
theorem apply_R_prime_eq {α : Type} [Inhabited α] (s : CubeState α) :
    apply_R_prime s = _apply_permutation s (perm3 R_perm) :=
  triple_ap s R_perm (by decide)

/-- Reduction of the derived R2 move to one permutation array. -/
theorem apply_R2_eq {α : Type} [Inhabited α] (s : CubeState α) :
    apply_R2 s = _apply_permutation s (perm2 R_perm) :=
  double_ap s R_perm (by decide)

/-- Reduction of the derived F-prime move to one permutation array. -/
theorem apply_F_prime_eq {α : Type} [Inhabited α] (s : CubeState α) :
    apply_F_prime s = _apply_permutation s (perm3 F_perm) :=
  triple_ap s F_perm (by decide)

/-- Reduction of the derived F2 move to one permutation array. -/
theorem apply_F2_eq {α : Type} [Inhabited α] (s : CubeState α) :
    apply_F2 s = _apply_permutation s (perm2 F_perm) :=
  double_ap s F_perm (by decide)

/-- Reduction of the derived D-prime move to one permutation array. -/
theorem apply_D_prime_eq {α : Type} [Inhabited α] (s : CubeState α) :
    apply_D_prime s = _apply_permutation s (perm3 D_perm) :=
  triple_ap s D_perm (by decide)

/-- Reduction of the derived D2 move to one permutation array. -/
theorem apply_D2_eq {α : Type} [Inhabited α] (s : CubeState α) :
    apply_D2 s = _apply_permutation s (perm2 D_perm) :=
  double_ap s D_perm (by decide)

/-- Reduction of the derived L-prime move to one permutation array. -/
theorem apply_L_prime_eq {α : Type} [Inhabited α] (s : CubeState α) :
    apply_L_prime s = _apply_permutation s (perm3 L_perm) :=
  triple_ap s L_perm (by decide)

/-- Reduction of the derived L2 move to one permutation array. -/
theorem apply_L2_eq {α : Type} [Inhabited α] (s : CubeState α) :
    apply_L2 s = _apply_permutation s (perm2 L_perm) :=
  double_ap s L_perm (by decide)

/-- Reduction of the derived B-prime move to one permutation array. -/
theorem apply_B_prime_eq {α : Type} [Inhabited α] (s : CubeState α) :
    apply_B_prime s = _apply_permutation s (perm3 B_perm) :=
  triple_ap s B_perm (by decide)

/-- Reduction of the derived B2 move to one permutation array. -/
theorem apply_B2_eq {α : Type} [Inhabited α] (s : CubeState α) :
    apply_B2 s = _apply_permutation s (perm2 B_perm) :=
  double_ap s B_perm (by decide)


/-- Center positions are untouched by any permutation array that fixes
them, for every state. -/
theorem centers_fixed {α : Type} [Inhabited α] (s : CubeState α) (P : List Nat)
    (hP : ∀ c ∈ CENTER_POSITIONS, P.getD c 0 = c) :
    ∀ c ∈ CENTER_POSITIONS,
      (_apply_permutation s P).stickers.getD c default =
        s.stickers.getD c default := by
  intro c hc
  have hc54 : c < 54 := by fin_cases hc <;> decide
  show ((List.range 54).map fun i => s.stickers.getD (P.getD i 0) default).getD c default = _
  rw [getD_map_range _ _ hc54, hP c hc]

/-- Reading every position of a 54-element list reconstructs the list. -/
theorem map_getD_54 {α : Type} (l : List α) (d : α) (h : l.length = 54) :
    (List.range 54).map (fun i => l.getD i d) = l := by
  conv_lhs => rw [← h]
  exact getD_range_map l d

/-- Application of a permutation array that is a rearrangement of the 54
indices permutes the stickers of every 54-sticker state. -/
theorem stickers_perm {α : Type} [Inhabited α] (s : CubeState α)
    (h : s.stickers.length = 54) (P : List Nat) (hP : P.Perm (List.range 54)) :
    (_apply_permutation s P).stickers.Perm s.stickers := by
  have hlen : P.length = 54 := by rw [hP.length_eq]; simp
  have hmap : (_apply_permutation s P).stickers =
      P.map fun j => s.stickers.getD j default := by
    apply List.ext_getElem
    · simp [_apply_permutation, hlen]
    · intro n h1 h2
      have hn : n < 54 := by simpa [_apply_permutation] using h1
      have hnP : n < P.length := by rw [hlen]; exact hn
      simp only [_apply_permutation] at h1 ⊢
      rw [List.getElem_map, List.getElem_map, List.getElem_range]
      congr 1
      rw [List.getD_eq_getElem?_getD, List.getElem?_eq_getElem hnP]
      rfl
  rw [hmap]
  have h2 : (P.map fun j => s.stickers.getD j default).Perm
      ((List.range 54).map fun j => s.stickers.getD j default) :=
    hP.map _
  rw [map_getD_54 s.stickers default h] at h2
  exact h2



/-- Helper: sequence application distributes over list append, with the
first failure propagating. -/
theorem apply_sequence_append {α : Type} [Inhabited α] (s : CubeState α)
    (a b : List MoveName) :
    apply_sequence s (a ++ b) =
      Except.bind (apply_sequence s a) fun t => apply_sequence t b := by
  induction a generalizing s with
  | nil => rfl
  | cons m rest ih =>
    show apply_sequence s (m :: (rest ++ b)) = _
    simp only [apply_sequence]
    cases apply_move s m with
    | error e => rfl
    | ok c => exact ih c

/-- Helper: six repetitions of the sexy move return the solved state. -/
theorem sexy_six :
    apply_sequence CubeState.solved ((List.replicate 6 sexy_move).flatten) =
      .ok CubeState.solved := by decide

/-- Helper: any multiple of six repetitions of the sexy move returns the
solved state. -/
theorem sexy_six_mul (k : Nat) :
    apply_sequence CubeState.solved
      ((List.replicate (6 * k) sexy_move).flatten) = .ok CubeState.solved := by
  induction k with
  | zero => rfl
  | succ n ih =>
    have h1 : 6 * (n + 1) = 6 * n + 6 := by ring
    rw [h1, List.replicate_add, List.flatten_append, apply_sequence_append, ih]
    exact sexy_six

/-- C1: applying each base move four times to the solved state returns the
solved state, for all six faces; but the fourth power of the L move is not
the identity permutation: on the state whose 54 stickers are the distinct
labels 0..53 it does not restore the original state, contradicting the
documented property that every base move to the fourth power is the
identity. -/
theorem C1_fourth_power :
    (apply_sequence CubeState.solved [['U'], ['U'], ['U'], ['U']] = .ok CubeState.solved ∧
     apply_sequence CubeState.solved [['R'], ['R'], ['R'], ['R']] = .ok CubeState.solved ∧
     apply_sequence CubeState.solved [['F'], ['F'], ['F'], ['F']] = .ok CubeState.solved ∧
     apply_sequence CubeState.solved [['D'], ['D'], ['D'], ['D']] = .ok CubeState.solved ∧
     apply_sequence CubeState.solved [['L'], ['L'], ['L'], ['L']] = .ok CubeState.solved ∧
     apply_sequence CubeState.solved [['B'], ['B'], ['B'], ['B']] = .ok CubeState.solved) ∧
    apply_sequence (⟨List.range 54⟩ : CubeState Nat) [['L'], ['L'], ['L'], ['L']] ≠
      .ok ⟨List.range 54⟩ := by
  decide

/-- C2: for every base move, applying the move and then the move named by
`invert_move`, in either order, returns the solved state. -/
theorem C2_move_inverse_cancel :
    (apply_sequence CubeState.solved [['U'], invert_move ['U']] = .ok CubeState.solved ∧
     apply_sequence CubeState.solved [invert_move ['U'], ['U']] = .ok CubeState.solved) ∧
    (apply_sequence CubeState.solved [['R'], invert_move ['R']] = .ok CubeState.solved ∧
     apply_sequence CubeState.solved [invert_move ['R'], ['R']] = .ok CubeState.solved) ∧
    (apply_sequence CubeState.solved [['F'], invert_move ['F']] = .ok CubeState.solved ∧
     apply_sequence CubeState.solved [invert_move ['F'], ['F']] = .ok CubeState.solved) ∧
    (apply_sequence CubeState.solved [['D'], invert_move ['D']] = .ok CubeState.solved ∧
     apply_sequence CubeState.solved [invert_move ['D'], ['D']] = .ok CubeState.solved) ∧
    (apply_sequence CubeState.solved [['L'], invert_move ['L']] = .ok CubeState.solved ∧
     apply_sequence CubeState.solved [invert_move ['L'], ['L']] = .ok CubeState.solved) ∧
    (apply_sequence CubeState.solved [['B'], invert_move ['B']] = .ok CubeState.solved ∧
     apply_sequence CubeState.solved [invert_move ['B'], ['B']] = .ok CubeState.solved) := by
  decide

/-- C3: the scramble and inverse round trip fails in the code: the
one-move sequence L applied to the distinct-label state and then undone by
its inverted sequence does not restore the state, and even from the solved
state the sequence U L followed by its inverted sequence does not restore
the solved state, contradicting the documented round-trip property of
`invert_sequence` and the repository's own scramble tests. -/
theorem C3_roundtrip_fails :
    Except.bind (apply_sequence (⟨List.range 54⟩ : CubeState Nat) [['L']])
        (fun t => apply_sequence t (invert_sequence [['L']])) ≠
      .ok ⟨List.range 54⟩ ∧
    Except.bind (apply_sequence CubeState.solved [['U'], ['L']])
        (fun t => apply_sequence t (invert_sequence [['U'], ['L']])) ≠
      .ok CubeState.solved := by
  decide

/-- C4: every one of the 18 moves maps a 54-sticker state with pairwise
distinct stickers to a state holding exactly the same stickers, each in
exactly one position: the result is a rearrangement of the input stickers
and is again duplicate-free. -/
theorem C4_moves_are_bijections {α : Type} [Inhabited α] :
    ∀ m ∈ MOVE_KEYS, ∀ s : CubeState α, s.stickers.length = 54 →
      s.stickers.Nodup →
      ∃ t, apply_move s m = .ok t ∧ t.stickers.Perm s.stickers ∧
        t.stickers.Nodup := by
  intro m hm s h hnd
  fin_cases hm
  · have hp := stickers_perm s h (U_perm) (by decide)
    exact ⟨_, rfl, hp, hp.symm.nodup hnd⟩
  · have hp := stickers_perm s h (perm3 U_perm) (by decide)
    exact ⟨_, congrArg Except.ok (apply_U_prime_eq s), hp, hp.symm.nodup hnd⟩
  · have hp := stickers_perm s h (perm2 U_perm) (by decide)
    exact ⟨_, congrArg Except.ok (apply_U2_eq s), hp, hp.symm.nodup hnd⟩
  · have hp := stickers_perm s h (R_perm) (by decide)
    exact ⟨_, rfl, hp, hp.symm.nodup hnd⟩
  · have hp := stickers_perm s h (perm3 R_perm) (by decide)
    exact ⟨_, congrArg Except.ok (apply_R_prime_eq s), hp, hp.symm.nodup hnd⟩
  · have hp := stickers_perm s h (perm2 R_perm) (by decide)
    exact ⟨_, congrArg Except.ok (apply_R2_eq s), hp, hp.symm.nodup hnd⟩
  · have hp := stickers_perm s h (F_perm) (by decide)
    exact ⟨_, rfl, hp, hp.symm.nodup hnd⟩
  · have hp := stickers_perm s h (perm3 F_perm) (by decide)
    exact ⟨_, congrArg Except.ok (apply_F_prime_eq s), hp, hp.symm.nodup hnd⟩
  · have hp := stickers_perm s h (perm2 F_perm) (by decide)
    exact ⟨_, congrArg Except.ok (apply_F2_eq s), hp, hp.symm.nodup hnd⟩
  · have hp := stickers_perm s h (D_perm) (by decide)
    exact ⟨_, rfl, hp, hp.symm.nodup hnd⟩
  · have hp := stickers_perm s h (perm3 D_perm) (by decide)
    exact ⟨_, congrArg Except.ok (apply_D_prime_eq s), hp, hp.symm.nodup hnd⟩
  · have hp := stickers_perm s h (perm2 D_perm) (by decide)
    exact ⟨_, congrArg Except.ok (apply_D2_eq s), hp, hp.symm.nodup hnd⟩
  · have hp := stickers_perm s h (L_perm) (by decide)
    exact ⟨_, rfl, hp, hp.symm.nodup hnd⟩
  · have hp := stickers_perm s h (perm3 L_perm) (by decide)
    exact ⟨_, congrArg Except.ok (apply_L_prime_eq s), hp, hp.symm.nodup hnd⟩
  · have hp := stickers_perm s h (perm2 L_perm) (by decide)
    exact ⟨_, congrArg Except.ok (apply_L2_eq s), hp, hp.symm.nodup hnd⟩
  · have hp := stickers_perm s h (B_perm) (by decide)
    exact ⟨_, rfl, hp, hp.symm.nodup hnd⟩
  · have hp := stickers_perm s h (perm3 B_perm) (by decide)
    exact ⟨_, congrArg Except.ok (apply_B_prime_eq s), hp, hp.symm.nodup hnd⟩
  · have hp := stickers_perm s h (perm2 B_perm) (by decide)
    exact ⟨_, congrArg Except.ok (apply_B2_eq s), hp, hp.symm.nodup hnd⟩

/-- C4 witness: the U move on the distinct-label state 0..53. -/
theorem C4_witness :
    ∃ t, apply_move (⟨List.range 54⟩ : CubeState Nat) ['U'] = .ok t ∧
      t.stickers.Perm (List.range 54) ∧ t.stickers.Nodup :=
  C4_moves_are_bijections ['U'] (by decide) ⟨List.range 54⟩ (by decide) (by decide)

/-- C5 counterexample: applying the sexy move sequence 105 consecutive
times to the solved state does not return the solved state (the sequence
has order six and 105 is not a multiple of six). -/
theorem C5_counterexample :
    apply_sequence CubeState.solved
      ((List.replicate 105 sexy_move).flatten) ≠ .ok CubeState.solved := by
  have h102 := sexy_six_mul 17
  have hsplit : (105 : Nat) = 6 * 17 + 3 := by norm_num
  rw [hsplit, List.replicate_add, List.flatten_append, apply_sequence_append,
    h102]
  decide

/-- C5 amended: any multiple of six repetitions of the sexy move sequence
returns the solved state, while 105 repetitions equal three repetitions
and do not return the solved state. -/
theorem C5_amended_six_multiples :
    (∀ k : Nat, apply_sequence CubeState.solved
        ((List.replicate (6 * k) sexy_move).flatten) = .ok CubeState.solved) ∧
    apply_sequence CubeState.solved ((List.replicate 105 sexy_move).flatten) =
      apply_sequence CubeState.solved ((List.replicate 3 sexy_move).flatten) ∧
    apply_sequence CubeState.solved ((List.replicate 105 sexy_move).flatten) ≠
      .ok CubeState.solved := by
  have h102 := sexy_six_mul 17
  have hsplit : (105 : Nat) = 6 * 17 + 3 := by norm_num
  refine ⟨sexy_six_mul, ?_, ?_⟩ <;>
    rw [hsplit, List.replicate_add, List.flatten_append, apply_sequence_append,
      h102]
  · rfl
  · decide

/-- C5 witness: twelve repetitions of the sexy move return the solved
state. -/
theorem C5_witness :
    apply_sequence CubeState.solved
      ((List.replicate (6 * 2) sexy_move).flatten) = .ok CubeState.solved :=
  C5_amended_six_multiples.1 2

/-- C6: on the solved state, the base moves of each opposite face pair
give the same result in either order. -/
theorem C6_opposite_commute :
    apply_sequence CubeState.solved [['U'], ['D']] =
      apply_sequence CubeState.solved [['D'], ['U']] ∧
    apply_sequence CubeState.solved [['R'], ['L']] =
      apply_sequence CubeState.solved [['L'], ['R']] ∧
    apply_sequence CubeState.solved [['F'], ['B']] =
      apply_sequence CubeState.solved [['B'], ['F']] := by
  refine ⟨?_, ?_, ?_⟩
  · show Except.ok (apply_D (apply_U CubeState.solved)) =
      Except.ok (apply_U (apply_D CubeState.solved))
    rw [show apply_D (apply_U CubeState.solved) =
          _apply_permutation CubeState.solved (compose_perm U_perm D_perm) from
        apply_apply _ U_perm D_perm (by decide),
      show apply_U (apply_D CubeState.solved) =
          _apply_permutation CubeState.solved (compose_perm D_perm U_perm) from
        apply_apply _ D_perm U_perm (by decide),
      show compose_perm U_perm D_perm = compose_perm D_perm U_perm from by decide]
  · show Except.ok (apply_L (apply_R CubeState.solved)) =
      Except.ok (apply_R (apply_L CubeState.solved))
    rw [show apply_L (apply_R CubeState.solved) =
          _apply_permutation CubeState.solved (compose_perm R_perm L_perm) from
        apply_apply _ R_perm L_perm (by decide),
      show apply_R (apply_L CubeState.solved) =
          _apply_permutation CubeState.solved (compose_perm L_perm R_perm) from
        apply_apply _ L_perm R_perm (by decide),
      show compose_perm R_perm L_perm = compose_perm L_perm R_perm from by decide]
  · show Except.ok (apply_B (apply_F CubeState.solved)) =
      Except.ok (apply_F (apply_B CubeState.solved))
    rw [show apply_B (apply_F CubeState.solved) =
          _apply_permutation CubeState.solved (compose_perm F_perm B_perm) from
        apply_apply _ F_perm B_perm (by decide),
      show apply_F (apply_B CubeState.solved) =
          _apply_permutation CubeState.solved (compose_perm B_perm F_perm) from
        apply_apply _ B_perm F_perm (by decide),
      show compose_perm F_perm B_perm = compose_perm B_perm F_perm from by decide]

/-- C7: for every state and every one of the 18 moves, the move succeeds
and leaves the sticker at each of the six center positions unchanged. -/
theorem C7_centers_never_move {α : Type} [Inhabited α] :
    ∀ m ∈ MOVE_KEYS, ∀ s : CubeState α,
      ∃ t, apply_move s m = .ok t ∧
        ∀ c ∈ CENTER_POSITIONS,
          t.stickers.getD c default = s.stickers.getD c default := by
  intro m hm s
  fin_cases hm
  · exact ⟨_, rfl, centers_fixed s (U_perm) (by decide)⟩
  · exact ⟨_, congrArg Except.ok (apply_U_prime_eq s), centers_fixed s (perm3 U_perm) (by decide)⟩
  · exact ⟨_, congrArg Except.ok (apply_U2_eq s), centers_fixed s (perm2 U_perm) (by decide)⟩
  · exact ⟨_, rfl, centers_fixed s (R_perm) (by decide)⟩
  · exact ⟨_, congrArg Except.ok (apply_R_prime_eq s), centers_fixed s (perm3 R_perm) (by decide)⟩
  · exact ⟨_, congrArg Except.ok (apply_R2_eq s), centers_fixed s (perm2 R_perm) (by decide)⟩
  · exact ⟨_, rfl, centers_fixed s (F_perm) (by decide)⟩
  · exact ⟨_, congrArg Except.ok (apply_F_prime_eq s), centers_fixed s (perm3 F_perm) (by decide)⟩
  · exact ⟨_, congrArg Except.ok (apply_F2_eq s), centers_fixed s (perm2 F_perm) (by decide)⟩
  · exact ⟨_, rfl, centers_fixed s (D_perm) (by decide)⟩
  · exact ⟨_, congrArg Except.ok (apply_D_prime_eq s), centers_fixed s (perm3 D_perm) (by decide)⟩
  · exact ⟨_, congrArg Except.ok (apply_D2_eq s), centers_fixed s (perm2 D_perm) (by decide)⟩
  · exact ⟨_, rfl, centers_fixed s (L_perm) (by decide)⟩
  · exact ⟨_, congrArg Except.ok (apply_L_prime_eq s), centers_fixed s (perm3 L_perm) (by decide)⟩
  · exact ⟨_, congrArg Except.ok (apply_L2_eq s), centers_fixed s (perm2 L_perm) (by decide)⟩
  · exact ⟨_, rfl, centers_fixed s (B_perm) (by decide)⟩
  · exact ⟨_, congrArg Except.ok (apply_B_prime_eq s), centers_fixed s (perm3 B_perm) (by decide)⟩
  · exact ⟨_, congrArg Except.ok (apply_B2_eq s), centers_fixed s (perm2 B_perm) (by decide)⟩

/-- C7 witness: the F move on the solved state fixes all six centers. -/
theorem C7_witness :
    ∃ t, apply_move CubeState.solved ['F'] = .ok t ∧
      ∀ c ∈ CENTER_POSITIONS,
        t.stickers.getD c default = CubeState.solved.stickers.getD c default :=
  C7_centers_never_move ['F'] (by decide) CubeState.solved

/-- C8: constructing a state from a sticker sequence succeeds exactly on
length 54, returning exactly the supplied stickers with no other content
validation, and fails with a shape error on every other length with no
truncation, padding or coercion. -/
theorem C8_construct_shape {α : Type} (l : List α) :
    (l.length = 54 → CubeState.construct l = .ok ⟨l⟩) ∧
    (l.length ≠ 54 → CubeState.construct l = .error (.shapeError l.length)) := by
  constructor <;> intro h <;> simp [CubeState.construct, h]

/-- C8 witness: a 54-element list constructs, a 1-element list fails with
the shape error. -/
theorem C8_witness :
    CubeState.construct (List.replicate 54 'W') =
      .ok ⟨List.replicate 54 'W'⟩ ∧
    CubeState.construct (['W'] : List Char) = .error (.shapeError 1) :=
  ⟨(C8_construct_shape (List.replicate 54 'W')).1 (by decide),
   (C8_construct_shape ['W']).2 (by decide)⟩

/-- C9: dispatching a move name succeeds exactly when the name is in the
18-symbol vocabulary; any other name fails with the invalid-move error
enumerating the full sorted valid set, which is a rearrangement of the
vocabulary and has exactly 18 entries. -/
theorem C9_apply_move_vocabulary {α : Type} [Inhabited α]
    (s : CubeState α) (m : MoveName) :
    ((∃ t, apply_move s m = .ok t) ↔ m ∈ MOVE_KEYS) ∧
    (m ∉ MOVE_KEYS →
      apply_move s m = .error (.invalidMoveError m VALID_MOVES)) ∧
    VALID_MOVES.Perm MOVE_KEYS ∧ VALID_MOVES.length = 18 := by
  have herr : m ∉ MOVE_KEYS →
      apply_move s m = .error (.invalidMoveError m VALID_MOVES) := by
    intro hm
    have hnone : @lookup_move α _ m = none := by
      unfold lookup_move
      rw [Option.map_eq_none', List.find?_eq_none]
      intro x hx hbeq
      apply hm
      have hx1 : x.1 = m := eq_of_beq hbeq
      have hkey : x.1 ∈ MOVE_KEYS := by
        have hmapkeys : (@MOVE_FUNCTIONS α _).map Prod.fst = MOVE_KEYS := rfl
        rw [← hmapkeys]
        exact List.mem_map_of_mem Prod.fst hx
      rwa [hx1] at hkey
    unfold apply_move
    rw [hnone]
  refine ⟨⟨?_, ?_⟩, herr, by decide, by decide⟩
  · rintro ⟨t, ht⟩
    by_contra hm
    rw [herr hm] at ht
    exact Except.noConfusion ht
  · intro hm
    fin_cases hm <;> exact ⟨_, rfl⟩

/-- C9 witness: the U move dispatches, the unknown name X fails with the
enumerating error. -/
theorem C9_witness :
    (∃ t, apply_move CubeState.solved ['U'] = .ok t) ∧
    apply_move CubeState.solved ['X'] =
      .error (.invalidMoveError ['X'] VALID_MOVES) :=
  ⟨(C9_apply_move_vocabulary CubeState.solved ['U']).1.mpr (by decide),
   (C9_apply_move_vocabulary CubeState.solved ['X']).2.1 (by decide)⟩

/-- C10: constructing a state with no sticker argument does not fail: it
returns the canonical solved state, equal to the solved factory. -/
theorem C10_init_none_solved :
    CubeState.init none = .ok CubeState.solved := by
  rfl


end Cube
